import Mathlib

/-!
Verification development for the order import and refund reconciliation
engine of an Odoo ↔ Shopify synchronization module
(`odoo_shopify_automation`).  The Python sources are shallowly embedded:
JSON payload fields become `Option`-typed record fields (Python `dict.get`
returning `None` on a missing key), decimal money amounts become `ℚ`, and
database state becomes explicit record lists threaded through the
functions.  Each embedded definition mirrors one function or code block of
`models/shopify_order.py` (or, where noted, is modelled from the
specification because the body is absent from the sources).
-/

namespace ShopifySync

/-- Python truthiness of an optional string field read from a JSON payload:
a missing key (`None`) and the empty string are falsy. -/
def strTruthy : Option String → Bool
  | none => false
  | some s => s ≠ ""

/-- `payload.get(key) or default` on a string field: the default is used when
the key is missing or its value is the empty string. -/
def orDefault (o : Option String) (d : String) : String :=
  match o with
  | none => d
  | some s => if s = "" then d else s

/-- Python `s.replace(' ', '_')`: with a one-character pattern this is a
character-wise map. -/
def replaceSpaces (s : String) : String :=
  String.mk (s.data.map (fun c => if c = ' ' then '_' else c))

/-- One entry of the payload's `shipping_lines` array (the fields the import
code reads). -/
structure ShippingLine where
  title : Option String
  code : Option String
  price : ℚ
deriving Repr, DecidableEq

/-- One entry of the payload's `transactions` array as read by
`_prepare_sale_order_status_vals` (only the gateway name is consulted). -/
structure TransactionData where
  gateway : Option String
deriving Repr, DecidableEq

/-- One entry of `discount_allocations` on a line item; `none` models an
amount that fails `float(...)` parsing (the code skips it). -/
structure DiscountAllocation where
  amount : Option ℚ
deriving Repr, DecidableEq

/-- One entry of the payload's `line_items` array (the fields the import
code reads).  Numeric strings arrive already parsed into `ℚ` / `Int`. -/
structure LineItem where
  id : Option Nat
  product_id : Option Nat
  name : Option String
  sku : Option String
  price : ℚ
  quantity : Option Int
  discount_allocations : List DiscountAllocation
deriving Repr, DecidableEq

/-- `refund_line_items[].line_item` sub-object of a refund payload. -/
structure RefundLineItemData where
  product_id : Option Nat
  name : Option String
  sku : Option String
  price : Option ℚ
deriving Repr, DecidableEq

/-- One entry of a refund's `refund_line_items`.  `quantity = none` models a
missing or unparsable quantity (the code treats it as zero and skips the
line); `subtotal` and `total_tax` carry the parsed decimal with the code's
`get(_, 0)` default applied. -/
structure RefundLineItem where
  quantity : Option ℚ
  subtotal : ℚ
  total_tax : ℚ
  line_item : RefundLineItemData
deriving Repr, DecidableEq

/-- The refund payload's `shipping` sub-object.  Shopify sends the amounts
as decimal strings, so the code's `get('amount') or get('maximum')` picks
the first present field; `none` models an absent field. -/
structure RefundShipping where
  amount : Option ℚ
  maximum : Option ℚ
  title : Option String
deriving Repr, DecidableEq

/-- One entry of a refund's `adjustments`; `amount = none` models an
unparsable amount (treated as zero). -/
structure RefundAdjustment where
  amount : Option ℚ
  reason : Option String
deriving Repr, DecidableEq

/-- One entry of a refund's `transactions`: the parsed `amount`, with
`none` modelling a value `float(...)` rejects (the code skips it). -/
structure RefundTransaction where
  amount : Option ℚ
deriving Repr, DecidableEq

/-- One entry of the order payload's `refunds` array. -/
structure RefundPayload where
  id : Option Nat
  note : Option String
  created_at : Option String
  transactions : List RefundTransaction
  refund_line_items : List RefundLineItem
  shipping : Option RefundShipping
  adjustments : List RefundAdjustment
deriving Repr, DecidableEq

/-- A remote order payload: the fields `import_orders_from_shopify` and
`_prepare_sale_order_status_vals` read. -/
structure OrderPayload where
  id : Nat
  name : Option String
  order_number : Option String
  financial_status : Option String
  fulfillment_status : Option String
  payment_gateway_names : List String
  transactions : List TransactionData
  delivery_category : Option String
  requires_shipping : Option Bool
  shipping_lines : List ShippingLine
  line_items : List LineItem
  refunds : List RefundPayload
  total_discounts : ℚ
  cancelled_at : Option String
deriving Repr, DecidableEq

/-- The dictionary returned by `_prepare_sale_order_status_vals`: the five
projected status fields. -/
structure StatusVals where
  shopify_payment_status : String
  shopify_payment_method : Option String
  shopify_fulfillment_status : String
  shopify_delivery_category : String
  shopify_delivery_method : Option String
deriving Repr, DecidableEq

/-- The `financial_map` dictionary keys (an identity map with default
`'pending'`). -/
def financialKeys : List String :=
  ["pending", "authorized", "partially_paid", "paid", "partially_refunded",
   "refunded", "voided"]

/-- The `fulfillment_map` dictionary keys (an identity map with default
`'unfulfilled'`). -/
def fulfillmentKeys : List String :=
  ["unfulfilled", "partial", "fulfilled", "restocked"]

/-- The `delivery_map` dictionary keys (an identity map with default
`'shipping'`). -/
def deliveryKeys : List String :=
  ["shipping", "pickup", "local_delivery", "none"]

/-- `delivery_map.get(c, 'shipping')`. -/
def deliveryMapLookup (c : String) : String :=
  if c ∈ deliveryKeys then c else "shipping"

/-- The loop over `shopify_order.get('transactions')` that appends each
truthy gateway name not already listed. -/
def addGateways (init : List String) (txs : List TransactionData) : List String :=
  txs.foldl
    (fun acc tx =>
      match tx.gateway with
      | some g => if g ≠ "" ∧ g ∉ acc then acc ++ [g] else acc
      | none => acc)
    init

/-- `', '.join([pm for pm in payment_methods if pm]) or False`. -/
def joinedMethods (ms : List String) : Option String :=
  let j := String.intercalate ", " (ms.filter (fun pm => pm ≠ ""))
  if j = "" then none else some j

/-- Embedding of `ShopifyOrder._prepare_sale_order_status_vals`
(`models/shopify_order.py`, lines 74–134). -/
def prepareSaleOrderStatusVals (p : OrderPayload) : StatusVals :=
  let financial0 := replaceSpaces (orDefault p.financial_status "pending")
  let fulfillment0 := replaceSpaces (orDefault p.fulfillment_status "unfulfilled")
  let payment_methods := addGateways p.payment_gateway_names p.transactions
  let payment_method := joinedMethods payment_methods
  let dc0 := p.delivery_category
  let delivery_method :=
    match p.shipping_lines with
    | [] => none
    | sl :: _ =>
      match sl.title with
      | some t => if t ≠ "" then some t else sl.code
      | none => sl.code
  let dc1 := if p.shipping_lines ≠ [] ∧ ¬ strTruthy dc0 then some "shipping" else dc0
  let dc2 :=
    if ¬ strTruthy dc1 then
      if p.requires_shipping = some false then some "none" else some "shipping"
    else dc1
  { shopify_payment_status :=
      if financial0 ∈ financialKeys then financial0 else "pending"
    shopify_payment_method := payment_method
    shopify_fulfillment_status :=
      if fulfillment0 ∈ fulfillmentKeys then fulfillment0 else "unfulfilled"
    shopify_delivery_category := deliveryMapLookup (dc2.getD "")
    shopify_delivery_method := delivery_method }

/-- The delivery-category precedence in the words of the claim: explicit
"does not require shipping" first, then presence of a shipping line, then a
known platform-supplied category, with `'shipping'` as the final default. -/
def claimedDeliveryCategory (p : OrderPayload) : String :=
  if p.requires_shipping = some false then "none"
  else if p.shipping_lines ≠ [] then "shipping"
  else if strTruthy p.delivery_category ∧ p.delivery_category.getD "" ∈ deliveryKeys then
    p.delivery_category.getD ""
  else "shipping"

/-- A payload with every optional field absent and every list empty. -/
def emptyPayload : OrderPayload :=
  { id := 0
    name := none
    order_number := none
    financial_status := none
    fulfillment_status := none
    payment_gateway_names := []
    transactions := []
    delivery_category := none
    requires_shipping := none
    shipping_lines := []
    line_items := []
    refunds := []
    total_discounts := 0
    cancelled_at := none }

/-- A payload that explicitly does not require shipping but carries the
platform category `'pickup'`. -/
def payloadPickupNoShip : OrderPayload :=
  { emptyPayload with
      delivery_category := some "pickup"
      requires_shipping := some false }

/-- The local order: the five projected status fields plus, bundled in
`rest`, every other field of the `sale.order` record (lines, partner,
currency, provenance, …), which the status setter must not touch. -/
structure LocalOrderState (α : Type) where
  shopify_payment_status : String
  shopify_payment_method : Option String
  shopify_fulfillment_status : String
  shopify_delivery_category : String
  shopify_delivery_method : Option String
  rest : α
deriving Repr, DecidableEq

/-- Modelled from the spec: `_set_shopify_status_values` is invoked on
`sale.order` records at four call sites in `models/shopify_order.py`, but
its definition is not among these sources.  Per the spec it is a
field-allowlist setter: only the five projected status fields may be
mutated through it. -/
def setShopifyStatusValues (o : LocalOrderState α) (vals : StatusVals) :
    LocalOrderState α :=
  { o with
      shopify_payment_status := vals.shopify_payment_status
      shopify_payment_method := vals.shopify_payment_method
      shopify_fulfillment_status := vals.shopify_fulfillment_status
      shopify_delivery_category := vals.shopify_delivery_category
      shopify_delivery_method := vals.shopify_delivery_method }

/-- One credit-note line of the `invoice_line_ids` commands built by
`_sync_shopify_refunds`. -/
structure CNLine where
  product : Nat
  name : String
  quantity : ℚ
  price_unit : ℚ
  tax_ids : List Nat
deriving Repr, DecidableEq

/-- Sum of `price_unit * quantity` over constructed credit-note lines. -/
def lineTotal (ls : List CNLine) : ℚ :=
  (ls.map (fun l => l.price_unit * l.quantity)).sum

/-- Embedding of the refund-amount computation
(`_sync_shopify_refunds`, lines 261–276): absolute sum of the parsed
transaction amounts, falling back to the sum of `|subtotal|` over the
refund line items when that is zero.  A transaction amount `float(...)`
rejects contributes zero (the code's `except: continue`). -/
def refundAmount (r : RefundPayload) : ℚ :=
  let a := |(r.transactions.map (fun t => t.amount.getD 0)).sum|
  if a = 0 then (r.refund_line_items.map (fun l => |l.subtotal|)).sum else a

/-- One entry of the ephemeral invoice-line pool: the invoice line's
product, its mutable remaining quantity, and the fields inherited on a
match (`price_unit`, `tax_ids`). -/
structure PoolEntry where
  product : Nat
  remaining : ℚ
  price_unit : ℚ
  tax_ids : List Nat
deriving Repr, DecidableEq

/-- Greedy pool matching (`_sync_shopify_refunds`, lines 342–348): take the
first pool entry for the product whose remaining quantity covers the
refunded quantity up to the `1e-6` tolerance, decrementing it. -/
def poolTake (pool : List PoolEntry) (pid : Nat) (qty : ℚ) :
    Option PoolEntry × List PoolEntry :=
  match pool with
  | [] => (none, [])
  | e :: rest =>
    if e.product = pid ∧ qty - 1 / 1000000 ≤ e.remaining then
      (some e, { e with remaining := e.remaining - qty } :: rest)
    else
      let res := poolTake rest pid qty
      (res.1, e :: res.2)

/-- The state threaded through the per-refund line construction: lines
built so far, the running `constructed_total`, and the invoice-line pool. -/
structure BuildState where
  lines : List CNLine
  constructed_total : ℚ
  pool : List PoolEntry
deriving Repr, DecidableEq

/-- Embedding of one iteration of the `refund_line_items` loop
(`_sync_shopify_refunds`, lines 287–364).  `resolve` stands for the
product search/creation against the database (mapping lookup, then
name/SKU search, then placeholder creation) and returns the resolved
product's id and name.  Zero quantity skips the line; `price_unit` is
`subtotal / quantity`, replaced by the line item's own price when zero and
present, plus `total_tax / quantity` when tax is nonzero; a pool match
contributes its tax set and, when the price is still zero, its price. -/
def refundLineStep (resolve : RefundLineItemData → Nat × String)
    (hasInvoice : Bool) (st : BuildState) (rl : RefundLineItem) : BuildState :=
  let qty := |rl.quantity.getD 0|
  if qty = 0 then st
  else
    let prod := resolve rl.line_item
    let pu0 := rl.subtotal / qty
    let pu1 :=
      if pu0 = 0 ∧ rl.line_item.price.isSome then rl.line_item.price.getD 0 else pu0
    let pu2 := if rl.total_tax ≠ 0 then pu1 + rl.total_tax / qty else pu1
    let matched :=
      if hasInvoice then poolTake st.pool prod.1 qty else (none, st.pool)
    let tax_ids :=
      match matched.1 with
      | some e => e.tax_ids
      | none => []
    let pu3 :=
      match matched.1 with
      | some e => if pu2 = 0 then e.price_unit else pu2
      | none => pu2
    { lines := st.lines ++
        [{ product := prod.1
           name := rl.line_item.name.getD prod.2
           quantity := qty
           price_unit := pu3
           tax_ids := tax_ids }]
      constructed_total := st.constructed_total + pu3 * qty
      pool := matched.2 }

/-- The shipping amount of a refund (`_sync_shopify_refunds`, lines
366–371): `shipping.get('amount') or shipping.get('maximum')` — the
amounts arrive as decimal strings, so the `or` selects the first present
field — parsed with default zero. -/
def shippingAmount (r : RefundPayload) : ℚ :=
  match r.shipping with
  | none => 0
  | some s =>
    match s.amount with
    | some a => a
    | none => s.maximum.getD 0

/-- Embedding of one iteration of the `adjustments` loop
(`_sync_shopify_refunds`, lines 388–404): a zero (or unparsable) amount is
skipped, otherwise one line with quantity 1 and price `|amount|` on the
refund product is appended. -/
def adjustmentStep (refundProduct : Nat) (st : BuildState) (a : RefundAdjustment) :
    BuildState :=
  let v := a.amount.getD 0
  if v = 0 then st
  else
    { st with
        lines := st.lines ++
          [{ product := refundProduct
             name := orDefault a.reason "Adjustment"
             quantity := 1
             price_unit := |v|
             tax_ids := [] }]
        constructed_total := st.constructed_total + |v| }

/-- Embedding of the tail of the per-refund construction
(`_sync_shopify_refunds`, lines 406–424): when no lines were constructed,
synthesize a single catch-all line for the full `amount` and set
`constructed_total` to it; then, when `|amount − constructed_total|`
exceeds `0.01`, append the balancing `Shopify Refund Adjustment` line for
the delta. -/
def refundPostlude (refundProduct : Nat) (catchAllName : String)
    (amount : ℚ) (st : BuildState) : List CNLine × ℚ :=
  let withCatchAll :=
    if st.lines = [] then
      ([({ product := refundProduct
           name := catchAllName
           quantity := 1
           price_unit := amount
           tax_ids := [] } : CNLine)], amount)
    else (st.lines, st.constructed_total)
  let delta := amount - withCatchAll.2
  let finalLines :=
    if 1 / 100 < |delta| then
      withCatchAll.1 ++
        [{ product := refundProduct
           name := "Shopify Refund Adjustment"
           quantity := 1
           price_unit := delta
           tax_ids := [] }]
    else withCatchAll.1
  (finalLines, withCatchAll.2)

/-- Embedding of the shipping-refund block
(`_sync_shopify_refunds`, lines 366–386): when the shipping amount is
nonzero, append one quantity-1 line for it on the shipping product,
inheriting the invoice's shipping tax set. -/
def shippingStep (shippingProduct : Nat) (shippingTaxIds : List Nat)
    (r : RefundPayload) (st : BuildState) : BuildState :=
  if shippingAmount r = 0 then st
  else
    { st with
        lines := st.lines ++
          [{ product := shippingProduct
             name := orDefault ((r.shipping).bind (fun s => s.title)) "Shipping Refund"
             quantity := 1
             price_unit := shippingAmount r
             tax_ids := shippingTaxIds }]
        constructed_total := st.constructed_total + shippingAmount r }

/-- Embedding of the credit-note line construction of
`_sync_shopify_refunds` for one refund (lines 261–424): refund line
items, then the shipping line, then adjustment lines, then the
catch-all/balancing postlude.  Returns the final line list and the
`constructed_total` the code holds when computing the delta. -/
def buildRefundDoc (resolve : RefundLineItemData → Nat × String)
    (hasInvoice : Bool) (pool0 : List PoolEntry)
    (shippingProduct : Nat) (shippingTaxIds : List Nat)
    (refundProduct : Nat) (refundIdStr : String) (r : RefundPayload) :
    List CNLine × ℚ :=
  refundPostlude refundProduct (orDefault r.note ("Shopify Refund " ++ refundIdStr))
    (refundAmount r)
    (r.adjustments.foldl (adjustmentStep refundProduct)
      (shippingStep shippingProduct shippingTaxIds r
        (r.refund_line_items.foldl (refundLineStep resolve hasInvoice)
          { lines := [], constructed_total := 0, pool := pool0 })))

/-- A local sale-order line as created by the `line_items` loop of
`import_orders_from_shopify` (every created line also carries the
clear-taxes command `[(5, 0, 0)]`, which has no further content). -/
structure SOLine where
  product : Nat
  name : String
  product_uom_qty : Int
  price_unit : ℚ
deriving Repr, DecidableEq

/-- Embedding of one iteration of the `line_items` loop of
`import_orders_from_shopify` (lines 654–708): `resolveItem` stands for
the product resolution against the database (active mapping lookup, then
name/SKU search, then placeholder creation) returning the resolved
product's id and name; the quantity is `int(get('quantity', 1)) or 1`;
the unit price is the item price less the summed discount allocations
spread over the quantity.  One order line is created per item,
unconditionally. -/
def importLineItem (resolveItem : LineItem → Nat × String) (item : LineItem) : SOLine :=
  let prod := resolveItem item
  let q0 := item.quantity.getD 1
  let line_qty := if q0 = 0 then 1 else q0
  let discount_total := (item.discount_allocations.map (fun d => d.amount.getD 0)).sum
  let line_price :=
    if discount_total ≠ 0 ∧ line_qty ≠ 0 then
      item.price - discount_total / (line_qty : ℚ)
    else item.price
  { product := prod.1
    name := item.name.getD prod.2
    product_uom_qty := line_qty
    price_unit := line_price }

/-- The shipping line created per entry of `shipping_lines`
(`import_orders_from_shopify`, lines 710–722). -/
def mkShippingLine (shippingProduct : Nat × String) (sl : ShippingLine) : SOLine :=
  { product := shippingProduct.1
    name := orDefault sl.title "Shipping"
    product_uom_qty := 1
    price_unit := sl.price }

/-- The aggregate discount line created when `total_discounts` is nonzero
(`import_orders_from_shopify`, lines 728–738). -/
def mkDiscountLine (discountProduct : Nat × String) (p : OrderPayload) : SOLine :=
  { product := discountProduct.1
    name := "Shopify Discount"
    product_uom_qty := 1
    price_unit := -p.total_discounts }

/-- Embedding of the order-line rebuild of `import_orders_from_shopify`
(lines 649–738): when the local order's provenance is `'shopify'` and it
has lines, all existing lines are unlinked; then the loop appends one
line per payload line item, one per shipping line, and the aggregate
discount line when `total_discounts` is nonzero. -/
def rebuildOrderLines (resolveItem : LineItem → Nat × String)
    (shippingProduct discountProduct : Nat × String)
    (p : OrderPayload) (src : String) (existing : List SOLine) : List SOLine :=
  let kept := if src = "shopify" ∧ existing ≠ [] then [] else existing
  let afterItems :=
    p.line_items.foldl (fun acc item => acc ++ [importLineItem resolveItem item]) kept
  let afterShip :=
    p.shipping_lines.foldl (fun acc sl => acc ++ [mkShippingLine shippingProduct sl]) afterItems
  if p.total_discounts ≠ 0 then afterShip ++ [mkDiscountLine discountProduct p] else afterShip

/-- A sample payload line item (product 55, quantity 2). -/
def itemP55 : LineItem :=
  { id := some 11
    product_id := some 55
    name := some "Widget"
    sku := some "W-55"
    price := 10
    quantity := some 2
    discount_allocations := [] }

/-- A sample resolver mapping every item to product id 55. -/
def resolveP55 : LineItem → Nat × String := fun _ => (55, "Widget")

/-- A sample existing local order line. -/
def preexistingLine : SOLine :=
  { product := 99, name := "Old", product_uom_qty := 1, price_unit := 5 }

/-- A payload with one line item for product 55. -/
def payloadOneItem : OrderPayload :=
  { emptyPayload with id := 1001, line_items := [itemP55] }

/-- The quantity of a given product refunded across
`refunds[].refund_line_items[]`, cross-referenced by
`line_item.product_id` — the derivation the claim describes. -/
def refundedQtyFor (p : OrderPayload) (pid : Nat) : ℚ :=
  (p.refunds.map (fun r =>
    ((r.refund_line_items.filter (fun rl => rl.line_item.product_id = some pid)).map
      (fun rl => |rl.quantity.getD 0|)).sum)).sum

/-- The claim's notion of a fully refunded line item: its product appears
in the payload's refund line items with a total refunded quantity covering
the item's own quantity. -/
def fullyRefundedItem (p : OrderPayload) (item : LineItem) : Bool :=
  match item.product_id with
  | some pid => decide ((item.quantity.getD 1 : ℚ) ≤ refundedQtyFor p pid)
  | none => false

/-- The `line_item` sub-object refunding product 55. -/
def refundLineItemP55 : RefundLineItem :=
  { quantity := some 2
    subtotal := 20
    total_tax := 0
    line_item :=
      { product_id := some 55, name := some "Widget", sku := some "W-55", price := some 10 } }

/-- A refund payload fully refunding product 55 (quantity 2 of 2). -/
def refundOfP55 : RefundPayload :=
  { id := some 9001
    note := none
    created_at := none
    transactions := [{ amount := some (-20) }]
    refund_line_items := [refundLineItemP55]
    shipping := none
    adjustments := [] }

/-- An order payload whose single line item (product 55, quantity 2) is
fully refunded by its embedded refund. -/
def payloadFullRefund : OrderPayload :=
  { emptyPayload with id := 1002, line_items := [itemP55], refunds := [refundOfP55] }

/-- Odoo's `search(..., limit=1)`: first element satisfying the predicate. -/
def findFirst {α : Type} (pred : α → Bool) : List α → Option α
  | [] => none
  | x :: rest => if pred x then some x else findFirst pred rest

/-- A local sale order at the granularity the dedup logic reads: its id,
its client reference, and its provenance flag. -/
structure SaleOrderRec where
  id : Nat
  client_order_ref : String
  source : String
deriving Repr, DecidableEq

/-- A `shopify.order` mapping record. -/
structure OrderMapping where
  id : Nat
  shopify_order_id : String
  odoo_order_id : Nat
  instance_id : Nat
  sync_status : String
deriving Repr, DecidableEq

/-- The database state the order-dedup block touches: mapping records and
sale orders, with fresh-id counters for creation. -/
structure OrdersDB where
  mappings : List OrderMapping
  orders : List SaleOrderRec
  nextMappingId : Nat
  nextOrderId : Nat
deriving Repr, DecidableEq

/-- The derived reference string `f"Shopify-{shopify_order['id']}"`. -/
def derivedRef (pid : Nat) : String := "Shopify-" ++ toString pid

/-- Result of the order-resolution step: the updated database, the
mapping in hand (`existing_mapping`) if any, the local order the rest of
the iteration works on, and whether a new sale order was created. -/
structure ResolveResult where
  db : OrdersDB
  mappingId : Option Nat
  orderId : Nat
  createdOrder : Bool
deriving Repr, DecidableEq

/-- Embedding of the order-resolution step of `import_orders_from_shopify`
(lines 545–570 and 584–647): search the mapping by
`(shopify_order_id, instance_id)`; when absent, and only when the payload
carries a truthy `name` or `order_number`, search local orders by the
derived reference `Shopify-<id>` and backfill a mapping for a hit
(reusing a mapping already attached to that order); otherwise create a
new sale order carrying the derived reference.  Customer resolution and
the non-reference field values of the created order are outside the
granularity of this embedding. -/
def resolveOrder (db : OrdersDB) (p : OrderPayload) (inst : Nat) : ResolveResult :=
  let pidStr := toString p.id
  match findFirst (fun m => m.shopify_order_id = pidStr ∧ m.instance_id = inst) db.mappings with
  | some m =>
    { db := db, mappingId := some m.id, orderId := m.odoo_order_id, createdOrder := false }
  | none =>
    let order_number := if strTruthy p.name then p.name else p.order_number
    let found :=
      if strTruthy order_number then
        findFirst (fun o => o.client_order_ref = derivedRef p.id) db.orders
      else none
    match found with
    | some o =>
      match findFirst (fun m => m.odoo_order_id = o.id ∧ m.instance_id = inst) db.mappings with
      | some m2 =>
        { db := db, mappingId := some m2.id, orderId := m2.odoo_order_id,
          createdOrder := false }
      | none =>
        let newM : OrderMapping :=
          { id := db.nextMappingId
            shopify_order_id := pidStr
            odoo_order_id := o.id
            instance_id := inst
            sync_status := "synced" }
        { db :=
            { db with
                mappings := db.mappings ++ [newM]
                nextMappingId := db.nextMappingId + 1 }
          mappingId := some newM.id
          orderId := o.id
          createdOrder := false }
    | none =>
      let newOrder : SaleOrderRec :=
        { id := db.nextOrderId, client_order_ref := derivedRef p.id, source := "shopify" }
      { db :=
          { db with
              orders := db.orders ++ [newOrder]
              nextOrderId := db.nextOrderId + 1 }
        mappingId := none
        orderId := newOrder.id
        createdOrder := true }

/-- A database holding one local order carrying the derived reference for
external order 1, and no mapping records. -/
def dbOrphanOrder : OrdersDB :=
  { mappings := []
    orders := [{ id := 7, client_order_ref := "Shopify-1", source := "shopify" }]
    nextMappingId := 1
    nextOrderId := 8 }

/-- A payload for external order 1 with no `name` and no `order_number`. -/
def payloadNoName : OrderPayload := { emptyPayload with id := 1 }

/-- A payload for external order 1 carrying a truthy order name. -/
def payloadNamed : OrderPayload := { emptyPayload with id := 1, name := some "#1001" }

/-- The `move_vals` dictionary built for the credit note: its reference
and its line commands (partner, journal, currency and dates are carried
the same way and do not affect the upsert shape). -/
structure MoveVals where
  ref : String
  invoice_line_ids : List CNLine
deriving Repr, DecidableEq

/-- An `account.move` credit note: id, workflow state and content. -/
structure AccountMove where
  id : Nat
  state : String
  vals : MoveVals
deriving Repr, DecidableEq

/-- A `shopify.refund` mapping record (the fields the upsert touches). -/
structure RefundMapping where
  id : Nat
  shopify_refund_id : String
  instance_id : Nat
  move_id : Option Nat
deriving Repr, DecidableEq

/-- The database state the refund upsert touches. -/
structure RefundDB where
  moves : List AccountMove
  refundMaps : List RefundMapping
  nextMoveId : Nat
  nextMapId : Nat
deriving Repr, DecidableEq

/-- The ORM operations the refund upsert performs, in order. -/
inductive RefundAction where
  | buttonDraft (moveId : Nat)
  | writeMove (moveId : Nat)
  | createMove (moveId : Nat)
  | postMove (moveId : Nat)
  | writeMapping (mapId : Nat)
  | createMapping (mapId : Nat)
deriving Repr, DecidableEq

/-- In-place update of one move record by id. -/
def updateMove (l : List AccountMove) (n : Nat) (f : AccountMove → AccountMove) :
    List AccountMove :=
  l.map (fun m => if m.id = n then f m else m)

/-- The search key of `shopify.refund`:
`(shopify_refund_id, instance_id)`, unique by SQL constraint. -/
def refundKey (rid : String) (inst : Nat) (m : RefundMapping) : Bool :=
  m.shopify_refund_id = rid ∧ m.instance_id = inst

/-- The move created (and immediately posted) by the refund upsert when no
credit note exists yet. -/
def freshMove (db : RefundDB) (mv : MoveVals) : AccountMove :=
  { id := db.nextMoveId, state := "posted", vals := mv }

/-- The mapping record created by the refund upsert when none exists for
the `(shopify_refund_id, instance_id)` pair. -/
def freshMap (db : RefundDB) (rid : String) (inst : Nat) : RefundMapping :=
  { id := db.nextMapId
    shopify_refund_id := rid
    instance_id := inst
    move_id := some db.nextMoveId }

/-- The per-record rewrite applied to the mapping store when the mapping
with a given id is written in place. -/
def writeMapAt (mid : Nat) (n : Nat) (m : RefundMapping) : RefundMapping :=
  if m.id = mid then { m with move_id := some n } else m

/-- The per-record rewrite applied to a move that is rewritten and
(re)posted. -/
def repostMove (mv : MoveVals) (m : AccountMove) : AccountMove :=
  { m with vals := mv, state := "posted" }

/-- Embedding of the per-refund credit-note/mapping upsert of
`_sync_shopify_refunds` (lines 278–281 and 437–480): search the mapping
by `(shopify_refund_id, instance_id)` and take its move; a posted move is
reopened (`button_draft`) and rewritten, a live move is rewritten, an
absent move is created; the move is then posted, and the mapping is
written in place when found or created (carrying `shopify_refund_id`)
otherwise. -/
def refundUpsert (db : RefundDB) (rid : String) (inst : Nat) (mv : MoveVals) :
    RefundDB × List RefundAction :=
  match findFirst (refundKey rid inst) db.refundMaps with
  | some mp =>
    match mp.move_id.bind (fun k => findFirst (fun mo => mo.id = k) db.moves) with
    | some mo =>
      let draftActs := if mo.state = "posted" then [RefundAction.buttonDraft mo.id] else []
      ({ db with
          moves := updateMove db.moves mo.id (repostMove mv)
          refundMaps := db.refundMaps.map (writeMapAt mp.id mo.id) },
        draftActs ++ [RefundAction.writeMove mo.id, RefundAction.postMove mo.id,
          RefundAction.writeMapping mp.id])
    | none =>
      ({ db with
          moves := db.moves ++ [freshMove db mv]
          nextMoveId := db.nextMoveId + 1
          refundMaps := db.refundMaps.map (writeMapAt mp.id (freshMove db mv).id) },
        [RefundAction.createMove (freshMove db mv).id,
          RefundAction.postMove (freshMove db mv).id,
          RefundAction.writeMapping mp.id])
  | none =>
    ({ db with
        moves := db.moves ++ [freshMove db mv]
        nextMoveId := db.nextMoveId + 1
        refundMaps := db.refundMaps ++ [freshMap db rid inst]
        nextMapId := db.nextMapId + 1 },
      [RefundAction.createMove (freshMove db mv).id,
        RefundAction.postMove (freshMove db mv).id,
        RefundAction.createMapping (freshMap db rid inst).id])

/-- Number of refund mapping records for one `(refund id, instance)` pair. -/
def mapCount (db : RefundDB) (rid : String) (inst : Nat) : Nat :=
  db.refundMaps.countP (refundKey rid inst)

/-- An empty refund-upsert database. -/
def dbEmptyRefunds : RefundDB :=
  { moves := [], refundMaps := [], nextMoveId := 1, nextMapId := 1 }

/-- Move content for the first reconciliation pass. -/
def mvFirst : MoveVals := { ref := "Shopify Refund 9001", invoice_line_ids := [] }

/-- Move content for the second reconciliation pass. -/
def mvSecond : MoveVals :=
  { ref := "Shopify Refund 9001"
    invoice_line_ids :=
      [{ product := 3, name := "Shopify Refund 9001", quantity := 1, price_unit := 15,
         tax_ids := [] }] }

/-- An HTTP response to one page request of the fetch loop. -/
structure PageResponse where
  status : Nat
  body : String
  orders : List OrderPayload
deriving Repr, DecidableEq

/-- The externally visible events of the fetch loop.  `interPageDelay` is
the vocabulary for a sleep/pause between page requests; the embedded loop
below never emits it because `import_orders_from_shopify` contains no
sleep call. -/
inductive FetchEv where
  | pageRequest (sinceId : Option Nat)
  | interPageDelay
deriving Repr, DecidableEq

/-- One per-order error log entry
(`shopify.log` create, lines 826–831). -/
structure ErrorLog where
  orderId : Option Nat
  message : String
deriving Repr, DecidableEq

/-- Terminal outcome of the loop: `done` (normal break, job marked done),
`failed` (non-200 response: job marked failed and the single user-facing
error raised), or `starved` (model artifact: the supplied response
sequence ran out while the loop would have issued another request). -/
inductive FetchOutcome where
  | done
  | failed (status : Nat) (body : String)
  | starved
deriving Repr, DecidableEq

/-- The observable run state threaded through the loop. -/
structure FetchTrace where
  events : List FetchEv
  errorCount : Nat
  errorLogs : List ErrorLog
  attempted : List Nat
  pages : List (List OrderPayload)
deriving Repr, DecidableEq

/-- The all-empty starting trace. -/
def emptyFetchTrace : FetchTrace :=
  { events := [], errorCount := 0, errorLogs := [], attempted := [], pages := [] }

/-- `if last_id: params['since_id'] = last_id` — a zero id is falsy and
sends no cursor. -/
def sinceParam : Option Nat → Option Nat
  | none => none
  | some k => if k = 0 then none else some k

/-- Embedding of one iteration of the per-order `try/except`
(`import_orders_from_shopify`, lines 543–831): the order is attempted;
an exception increments the error counter and appends one error log
entry; either way the loop continues. -/
def stepOrder (proc : OrderPayload → Except String Unit) (t : FetchTrace)
    (o : OrderPayload) : FetchTrace :=
  match proc o with
  | Except.ok _ => { t with attempted := t.attempted ++ [o.id] }
  | Except.error e =>
    { t with
        attempted := t.attempted ++ [o.id]
        errorCount := t.errorCount + 1
        errorLogs := t.errorLogs ++ [{ orderId := some o.id, message := e }] }

/-- The per-order loop over one page. -/
def processChunk (proc : OrderPayload → Except String Unit)
    (chunk : List OrderPayload) (tr : FetchTrace) : FetchTrace :=
  chunk.foldl (stepOrder proc) tr

/-- Whether processing an order raises. -/
def procFails (proc : OrderPayload → Except String Unit) (o : OrderPayload) : Bool :=
  match proc o with
  | Except.ok _ => false
  | Except.error _ => true

/-- The error log entries one order contributes (one entry when it fails,
none otherwise). -/
def logOf (proc : OrderPayload → Except String Unit) (o : OrderPayload) :
    List ErrorLog :=
  match proc o with
  | Except.ok _ => []
  | Except.error e => [{ orderId := some o.id, message := e }]

/-- Embedding of the fetch/pagination loop of `import_orders_from_shopify`
(lines 517–541 and 824–835), driven by the sequence of responses the
remote API returns to the successive requests: issue one page request
(recording the `since_id` it carries; the code between two requests
contains no sleep, so no delay event is ever emitted), fail the job on a
non-200 response, stop on an empty page, process the page under the
per-order try/except, stop when the page is shorter than the requested
250, else advance the cursor to the page's last order id and continue. -/
def fetchLoop (proc : OrderPayload → Except String Unit) :
    List PageResponse → Option Nat → FetchTrace → FetchOutcome × FetchTrace
  | [], _, tr => (FetchOutcome.starved, tr)
  | r :: rest, lastId, tr =>
    let tr1 := { tr with events := tr.events ++ [FetchEv.pageRequest (sinceParam lastId)] }
    if r.status ≠ 200 then
      (FetchOutcome.failed r.status r.body, tr1)
    else if r.orders = [] then
      (FetchOutcome.done, tr1)
    else
      let tr2 := processChunk proc r.orders { tr1 with pages := tr1.pages ++ [r.orders] }
      if r.orders.length < 250 then
        (FetchOutcome.done, tr2)
      else
        fetchLoop proc rest ((r.orders.getLast?).map (fun o => o.id)) tr2

/-- The cursor sequence the claim describes: the first request carries the
initial cursor, each subsequent request the identifier of the last order
of the previous page. -/
def cursorChain : Option Nat → List (List OrderPayload) → List (Option Nat)
  | c, [] => [sinceParam c]
  | c, pg :: rest => sinceParam c :: cursorChain ((pg.getLast?).map (fun o => o.id)) rest

/-- Recognizer for the delay event. -/
def isDelayEv : FetchEv → Bool
  | FetchEv.interPageDelay => true
  | FetchEv.pageRequest _ => false

/-- An order payload with id 5. -/
def ordFive : OrderPayload := { emptyPayload with id := 5 }

/-- A full page: 250 orders, HTTP 200. -/
def pageFull : PageResponse :=
  { status := 200, body := "", orders := List.replicate 249 ordFive ++ [ordFive] }

/-- A short page: one order, HTTP 200. -/
def pageShort : PageResponse := { status := 200, body := "", orders := [ordFive] }

/-- A per-order processor that never raises. -/
def procOk : OrderPayload → Except String Unit := fun _ => Except.ok ()

/-- An order payload with id 6 and one with id 7. -/
def ordSix : OrderPayload := { emptyPayload with id := 6 }

/-- An order payload with id 7. -/
def ordSeven : OrderPayload := { emptyPayload with id := 7 }

/-- A processor raising exactly on order 6. -/
def procFailSix : OrderPayload → Except String Unit :=
  fun o => if o.id = 6 then Except.error "boom" else Except.ok ()

/-- C8 counterexample: on a payload that explicitly marks "does not require
shipping" while also carrying the platform category `'pickup'`, the code
projects `'pickup'` (the platform category wins), whereas the claimed
precedence projects `'none'`; so the claimed precedence does not describe
the code. -/
theorem C8_counterexample :
    (prepareSaleOrderStatusVals payloadPickupNoShip).shopify_delivery_category = "pickup" ∧
    claimedDeliveryCategory payloadPickupNoShip = "none" ∧
    (prepareSaleOrderStatusVals payloadPickupNoShip).shopify_delivery_category ≠
      claimedDeliveryCategory payloadPickupNoShip := by
  refine ⟨rfl, rfl, ?_⟩
  decide

/-- C8 (amended): the delivery category projected by
`_prepare_sale_order_status_vals` gives a truthy platform-supplied
`delivery_category` top precedence (unknown values falling back to
`'shipping'`); otherwise it is `'shipping'` when a shipping line exists;
otherwise `'none'` when the payload explicitly marks that the order does
not require shipping; otherwise `'shipping'`. -/
theorem C8_delivery_category_precedence (p : OrderPayload) :
    (prepareSaleOrderStatusVals p).shopify_delivery_category =
      (if strTruthy p.delivery_category then
        deliveryMapLookup (p.delivery_category.getD "")
      else if p.shipping_lines ≠ [] then "shipping"
      else if p.requires_shipping = some false then "none"
      else "shipping") := by
  rcases hdc : p.delivery_category with _ | s
  · by_cases h2 : p.shipping_lines = [] <;>
      by_cases h3 : p.requires_shipping = some false <;>
      simp [prepareSaleOrderStatusVals, hdc, h2, h3, strTruthy, deliveryMapLookup, deliveryKeys]
  · by_cases hs : s = ""
    · subst hs
      by_cases h2 : p.shipping_lines = [] <;>
        by_cases h3 : p.requires_shipping = some false <;>
        simp [prepareSaleOrderStatusVals, hdc, h2, h3, strTruthy, deliveryMapLookup, deliveryKeys]
    · by_cases h2 : p.shipping_lines = [] <;>
        simp [prepareSaleOrderStatusVals, hdc, h2, hs, strTruthy]

/-- C9: writing the projected status values produced by
`_prepare_sale_order_status_vals` onto a local order through the
field-allowlist setter `_set_shopify_status_values` (modelled from the
spec) mutates exactly the five projected fields and leaves every other
field of the order unchanged. -/
theorem C9_status_setter_frame {α : Type} (o : LocalOrderState α) (p : OrderPayload) :
    (setShopifyStatusValues o (prepareSaleOrderStatusVals p)).rest = o.rest ∧
    (setShopifyStatusValues o (prepareSaleOrderStatusVals p)).shopify_payment_status =
      (prepareSaleOrderStatusVals p).shopify_payment_status ∧
    (setShopifyStatusValues o (prepareSaleOrderStatusVals p)).shopify_payment_method =
      (prepareSaleOrderStatusVals p).shopify_payment_method ∧
    (setShopifyStatusValues o (prepareSaleOrderStatusVals p)).shopify_fulfillment_status =
      (prepareSaleOrderStatusVals p).shopify_fulfillment_status ∧
    (setShopifyStatusValues o (prepareSaleOrderStatusVals p)).shopify_delivery_category =
      (prepareSaleOrderStatusVals p).shopify_delivery_category ∧
    (setShopifyStatusValues o (prepareSaleOrderStatusVals p)).shopify_delivery_method =
      (prepareSaleOrderStatusVals p).shopify_delivery_method := by
  exact ⟨rfl, rfl, rfl, rfl, rfl, rfl⟩

theorem lineTotal_append (ls : List CNLine) (l : CNLine) :
    lineTotal (ls ++ [l]) = lineTotal ls + l.price_unit * l.quantity := by
  simp [lineTotal]

theorem refundLineStep_total (resolve : RefundLineItemData → Nat × String)
    (hasInvoice : Bool) (st : BuildState) (rl : RefundLineItem)
    (h : st.constructed_total = lineTotal st.lines) :
    (refundLineStep resolve hasInvoice st rl).constructed_total =
      lineTotal (refundLineStep resolve hasInvoice st rl).lines := by
  by_cases hq : rl.quantity.getD 0 = 0
  · simp [refundLineStep, hq, h]
  · simp [refundLineStep, hq, lineTotal_append, h]

theorem refundLineFold_total (resolve : RefundLineItemData → Nat × String)
    (hasInvoice : Bool) (rls : List RefundLineItem) (st : BuildState)
    (h : st.constructed_total = lineTotal st.lines) :
    (rls.foldl (refundLineStep resolve hasInvoice) st).constructed_total =
      lineTotal (rls.foldl (refundLineStep resolve hasInvoice) st).lines := by
  induction rls generalizing st with
  | nil => exact h
  | cons rl rest ih =>
    exact ih _ (refundLineStep_total resolve hasInvoice st rl h)

theorem adjustmentFold_total (refundProduct : Nat)
    (adjs : List RefundAdjustment) (st : BuildState)
    (h : st.constructed_total = lineTotal st.lines) :
    (adjs.foldl (adjustmentStep refundProduct) st).constructed_total =
      lineTotal (adjs.foldl (adjustmentStep refundProduct) st).lines := by
  induction adjs generalizing st with
  | nil => exact h
  | cons a rest ih =>
    refine ih _ ?_
    by_cases hv : a.amount.getD 0 = 0
    · simp [adjustmentStep, hv, h]
    · simp [adjustmentStep, hv, lineTotal_append, h]

theorem shippingStep_total (shippingProduct : Nat) (shippingTaxIds : List Nat)
    (r : RefundPayload) (st : BuildState)
    (h : st.constructed_total = lineTotal st.lines) :
    (shippingStep shippingProduct shippingTaxIds r st).constructed_total =
      lineTotal (shippingStep shippingProduct shippingTaxIds r st).lines := by
  by_cases hs : shippingAmount r = 0
  · simp [shippingStep, hs, h]
  · simp [shippingStep, hs, lineTotal_append, h]

/-- C1: for every refund, the sum of `price_unit * quantity` over all
constructed credit-note lines — including the catch-all line synthesized
when no lines were built and the balancing adjustment line appended when
`|amount − constructed_total| > 0.01` — is within `0.01` of the refund's
computed amount. -/
theorem refundPostlude_bound (refundProduct : Nat) (catchAllName : String)
    (amount : ℚ) (st : BuildState)
    (h : st.constructed_total = lineTotal st.lines) :
    |lineTotal (refundPostlude refundProduct catchAllName amount st).1 - amount| ≤ 1 / 100 := by
  by_cases he : st.lines = []
  · have e1 : refundPostlude refundProduct catchAllName amount st =
        ([{ product := refundProduct, name := catchAllName, quantity := 1,
            price_unit := amount, tax_ids := [] }], amount) := by
      unfold refundPostlude
      norm_num [he]
    rw [e1]
    norm_num [lineTotal]
  · by_cases hdelta : 1 / 100 < |amount - st.constructed_total|
    · have e1 : refundPostlude refundProduct catchAllName amount st =
          (st.lines ++
              [{ product := refundProduct
                 name := "Shopify Refund Adjustment"
                 quantity := 1
                 price_unit := amount - st.constructed_total
                 tax_ids := [] }],
            st.constructed_total) := by
        have hdelta2 : (100 : ℚ)⁻¹ < |amount - st.constructed_total| := by
          rw [← one_div]; exact hdelta
        unfold refundPostlude
        simp [he, hdelta2]
      rw [e1]
      simp only [lineTotal_append]
      have key : lineTotal st.lines + (amount - st.constructed_total) * 1 - amount = 0 := by
        rw [← h]; ring
      rw [key]
      norm_num
    · have e1 : refundPostlude refundProduct catchAllName amount st =
          (st.lines, st.constructed_total) := by
        have hdelta2 : |amount - st.constructed_total| ≤ (100 : ℚ)⁻¹ := by
          rw [← one_div]; exact le_of_not_lt hdelta
        unfold refundPostlude
        simp [he, hdelta2, not_lt.mpr hdelta2]
      rw [e1]
      rw [← h, abs_sub_comm]
      exact le_of_not_lt hdelta

/-- C1: for every refund, the sum of `price_unit * quantity` over all
constructed credit-note lines — including the catch-all line synthesized
when no lines were built and the balancing adjustment line appended when
`|amount − constructed_total| > 0.01` — is within `0.01` of the refund's
computed amount. -/
theorem C1_refund_line_conservation (resolve : RefundLineItemData → Nat × String)
    (hasInvoice : Bool) (pool0 : List PoolEntry)
    (shippingProduct : Nat) (shippingTaxIds : List Nat)
    (refundProduct : Nat) (refundIdStr : String) (r : RefundPayload) :
    |lineTotal (buildRefundDoc resolve hasInvoice pool0 shippingProduct
        shippingTaxIds refundProduct refundIdStr r).1 - refundAmount r| ≤ 1 / 100 := by
  have h1 : (r.refund_line_items.foldl (refundLineStep resolve hasInvoice)
      { lines := [], constructed_total := 0, pool := pool0 }).constructed_total =
      lineTotal (r.refund_line_items.foldl (refundLineStep resolve hasInvoice)
      { lines := [], constructed_total := 0, pool := pool0 }).lines :=
    refundLineFold_total resolve hasInvoice r.refund_line_items _ (by simp [lineTotal])
  have h2 := shippingStep_total shippingProduct shippingTaxIds r _ h1
  have h3 := adjustmentFold_total refundProduct r.adjustments _ h2
  exact refundPostlude_bound _ _ _ _ h3

theorem foldl_append_map {α β : Type} (f : α → β) (xs : List α) (l : List β) :
    xs.foldl (fun acc x => acc ++ [f x]) l = l ++ xs.map f := by
  induction xs generalizing l with
  | nil => simp
  | cons x rest ih => simp [ih]

theorem rebuildOrderLines_eq (resolveItem : LineItem → Nat × String)
    (shippingProduct discountProduct : Nat × String)
    (p : OrderPayload) (src : String) (existing : List SOLine) :
    rebuildOrderLines resolveItem shippingProduct discountProduct p src existing =
      (if src = "shopify" ∧ existing ≠ [] then [] else existing) ++
        (p.line_items.map (importLineItem resolveItem) ++
          (p.shipping_lines.map (mkShippingLine shippingProduct) ++
            (if p.total_discounts ≠ 0 then [mkDiscountLine discountProduct p] else []))) := by
  unfold rebuildOrderLines
  simp only [foldl_append_map]
  by_cases hd : p.total_discounts ≠ 0 <;> simp [hd]

/-- C4: re-importing an order of remote provenance (`shopify_order_source
= 'shopify'`) deletes all of its existing lines before rebuilding them
from the payload — the result is exactly the rebuild from an empty line
list — while for a locally created order the existing lines are left
unchanged (they survive, unmodified and in order, in front of the lines
the import appends). -/
theorem C4_remote_origin_line_replacement (resolveItem : LineItem → Nat × String)
    (shippingProduct discountProduct : Nat × String)
    (p : OrderPayload) (src : String) (existing : List SOLine) :
    (src = "shopify" →
      rebuildOrderLines resolveItem shippingProduct discountProduct p src existing =
        rebuildOrderLines resolveItem shippingProduct discountProduct p src []) ∧
    (src ≠ "shopify" →
      rebuildOrderLines resolveItem shippingProduct discountProduct p src existing =
        existing ++
          rebuildOrderLines resolveItem shippingProduct discountProduct p src []) := by
  constructor
  · intro hsrc
    rw [rebuildOrderLines_eq, rebuildOrderLines_eq]
    by_cases he : existing = [] <;> simp [hsrc, he]
  · intro hsrc
    rw [rebuildOrderLines_eq, rebuildOrderLines_eq]
    simp [hsrc]

/-- Witness for C4 at concrete inputs: a remote-origin order's line is
replaced, a locally created order keeps its line in front. -/
theorem C4_witness :
    rebuildOrderLines resolveP55 (7, "Ship") (8, "Disc") payloadOneItem "shopify"
        [preexistingLine] =
      rebuildOrderLines resolveP55 (7, "Ship") (8, "Disc") payloadOneItem "shopify" [] ∧
    rebuildOrderLines resolveP55 (7, "Ship") (8, "Disc") payloadOneItem "odoo"
        [preexistingLine] =
      [preexistingLine] ++
        rebuildOrderLines resolveP55 (7, "Ship") (8, "Disc") payloadOneItem "odoo" [] := by
  constructor
  · exact (C4_remote_origin_line_replacement resolveP55 (7, "Ship") (8, "Disc")
      payloadOneItem "shopify" [preexistingLine]).1 rfl
  · exact (C4_remote_origin_line_replacement resolveP55 (7, "Ship") (8, "Disc")
      payloadOneItem "odoo" [preexistingLine]).2 (by decide)

/-- C7 counterexample: in a payload whose single line item's product is
fully refunded (per the `refunds[].refund_line_items[].line_item.product_id`
cross-reference), the line reconstruction still creates a local order line
for that item — nothing is skipped, refuting the claimed skip. -/
theorem C7_counterexample :
    fullyRefundedItem payloadFullRefund itemP55 = true ∧
    itemP55 ∈ payloadFullRefund.line_items ∧
    ((rebuildOrderLines resolveP55 (7, "Ship") (8, "Disc") payloadFullRefund "shopify"
        []).filter (fun l => l.product = 55)).length = 1 := by
  refine ⟨?_, ?_, ?_⟩
  · norm_num [fullyRefundedItem, refundedQtyFor, payloadFullRefund, itemP55, refundOfP55,
      refundLineItemP55, emptyPayload, List.filter, abs_of_nonneg]
  · norm_num [payloadFullRefund, emptyPayload]
  · norm_num [rebuildOrderLines_eq, payloadFullRefund, itemP55, emptyPayload, importLineItem,
      resolveP55, List.filter]

/-- C7 (amended): the line reconstruction of `import_orders_from_shopify`
never skips a line item on refund grounds — the constructed lines are one
per payload line item (plus shipping and discount lines), and they are
entirely independent of the payload's `refunds[]` array. -/
theorem C7_no_line_item_skipped (resolveItem : LineItem → Nat × String)
    (shippingProduct discountProduct : Nat × String)
    (p : OrderPayload) (rs : List RefundPayload) :
    rebuildOrderLines resolveItem shippingProduct discountProduct
        { p with refunds := rs } "shopify" [] =
      rebuildOrderLines resolveItem shippingProduct discountProduct p "shopify" [] ∧
    rebuildOrderLines resolveItem shippingProduct discountProduct p "shopify" [] =
      p.line_items.map (importLineItem resolveItem) ++
        (p.shipping_lines.map (mkShippingLine shippingProduct) ++
          (if p.total_discounts ≠ 0 then [mkDiscountLine discountProduct p] else [])) := by
  constructor
  · rw [rebuildOrderLines_eq, rebuildOrderLines_eq]
    simp [mkDiscountLine]
  · rw [rebuildOrderLines_eq]
    simp

theorem findFirst_spec {α : Type} (pred : α → Bool) (l : List α) (x : α)
    (h : findFirst pred l = some x) : x ∈ l ∧ pred x = true := by
  induction l with
  | nil => simp [findFirst] at h
  | cons a t ih =>
    rw [findFirst] at h
    by_cases ha : pred a
    · rw [if_pos ha] at h
      obtain rfl := Option.some.inj h
      exact ⟨List.mem_cons_self _ _, ha⟩
    · rw [if_neg ha] at h
      rcases ih h with ⟨hm, hp⟩
      exact ⟨List.mem_cons_of_mem a hm, hp⟩

/-- C3 counterexample: a payload with no mapping whose derived reference
matches an existing local order, but which carries neither a `name` nor an
`order_number`, skips the fallback entirely — a second local order is
created and no mapping is backfilled, refuting the claim stated for every
such payload. -/
theorem C3_counterexample :
    findFirst (fun m => m.shopify_order_id = toString payloadNoName.id ∧
        m.instance_id = 1) dbOrphanOrder.mappings = none ∧
    findFirst (fun o => o.client_order_ref = derivedRef payloadNoName.id)
        dbOrphanOrder.orders =
      some { id := 7, client_order_ref := "Shopify-1", source := "shopify" } ∧
    (resolveOrder dbOrphanOrder payloadNoName 1).createdOrder = true ∧
    (resolveOrder dbOrphanOrder payloadNoName 1).db.orders.length = 2 ∧
    (resolveOrder dbOrphanOrder payloadNoName 1).db.mappings = [] := by
  refine ⟨rfl, by decide, ?_, ?_, ?_⟩ <;> decide

/-- C3 (amended): for a payload with no mapping for
`(shopify_order_id, instance_id)` whose derived reference `Shopify-<id>`
matches an existing local order, **provided the payload carries a truthy
`name` or `order_number`**, the import backfills a mapping pointing at
that order (reusing one already attached to it) and creates no second
local order. -/
theorem C3_dedup_fallback_backfill (db : OrdersDB) (p : OrderPayload) (inst : Nat)
    (lo : SaleOrderRec)
    (hmap : findFirst (fun m => m.shopify_order_id = toString p.id ∧
      m.instance_id = inst) db.mappings = none)
    (hnum : strTruthy p.name = true ∨ strTruthy p.order_number = true)
    (hlo : findFirst (fun o => o.client_order_ref = derivedRef p.id) db.orders = some lo) :
    (resolveOrder db p inst).createdOrder = false ∧
    (resolveOrder db p inst).db.orders = db.orders ∧
    (resolveOrder db p inst).orderId = lo.id ∧
    ∃ m, m ∈ (resolveOrder db p inst).db.mappings ∧
      m.odoo_order_id = lo.id ∧ m.instance_id = inst := by
  have hob : strTruthy (if strTruthy p.name then p.name else p.order_number) = true := by
    by_cases hn : strTruthy p.name
    · simp [hn]
    · rcases hnum with h | h
      · exact absurd h hn
      · simp [hn, h]
  cases hm2 : findFirst (fun m => m.odoo_order_id = lo.id ∧ m.instance_id = inst)
      db.mappings with
  | none =>
    have hres : resolveOrder db p inst =
        { db :=
            { db with
                mappings := db.mappings ++
                  [{ id := db.nextMappingId
                     shopify_order_id := toString p.id
                     odoo_order_id := lo.id
                     instance_id := inst
                     sync_status := "synced" }]
                nextMappingId := db.nextMappingId + 1 }
          mappingId := some db.nextMappingId
          orderId := lo.id
          createdOrder := false } := by
      simp only [resolveOrder, hmap, hob, if_pos, hlo, hm2]
    rw [hres]
    refine ⟨rfl, rfl, rfl, ?_⟩
    refine ⟨_, List.mem_append_right db.mappings (List.mem_singleton.mpr rfl), rfl, rfl⟩
  | some m2 =>
    have hspec := findFirst_spec _ _ _ hm2
    have hfields : m2.odoo_order_id = lo.id ∧ m2.instance_id = inst := by
      have := hspec.2
      simpa using this
    have hres : resolveOrder db p inst =
        { db := db, mappingId := some m2.id, orderId := m2.odoo_order_id,
          createdOrder := false } := by
      simp only [resolveOrder, hmap, hob, if_pos, hlo, hm2]
    rw [hres]
    exact ⟨rfl, rfl, hfields.1, ⟨m2, hspec.1, hfields.1, hfields.2⟩⟩

/-- Witness for the amended C3 at a concrete database: the fallback finds
the order carrying `Shopify-1`, backfills a mapping for it, and creates no
order. -/
theorem C3_witness :
    (resolveOrder dbOrphanOrder payloadNamed 1).createdOrder = false ∧
    (resolveOrder dbOrphanOrder payloadNamed 1).db.orders = dbOrphanOrder.orders ∧
    (resolveOrder dbOrphanOrder payloadNamed 1).orderId = 7 ∧
    ∃ m, m ∈ (resolveOrder dbOrphanOrder payloadNamed 1).db.mappings ∧
      m.odoo_order_id = 7 ∧ m.instance_id = 1 := by
  have h := C3_dedup_fallback_backfill dbOrphanOrder payloadNamed 1
    { id := 7, client_order_ref := "Shopify-1", source := "shopify" }
    rfl (Or.inl (by decide)) (by decide)
  exact ⟨h.1, h.2.1, h.2.2.1, h.2.2.2⟩

theorem updateMove_not_present (l : List AccountMove) (n : Nat)
    (f : AccountMove → AccountMove) (h : ∀ m ∈ l, m.id ≠ n) :
    updateMove l n f = l := by
  induction l with
  | nil => rfl
  | cons a t ih =>
    have ht := ih (fun m hm => h m (List.mem_cons_of_mem a hm))
    simp only [updateMove, List.map_cons] at ht ⊢
    rw [if_neg (h a (List.mem_cons_self a t)), ht]

theorem findFirst_eq_none {α : Type} (pred : α → Bool) (l : List α)
    (h : ∀ x ∈ l, pred x = false) : findFirst pred l = none := by
  induction l with
  | nil => rfl
  | cons a t ih =>
    rw [findFirst, if_neg]
    · exact ih (fun x hx => h x (List.mem_cons_of_mem a hx))
    · simp [h a (List.mem_cons_self a t)]

theorem findFirst_append_none {α : Type} (pred : α → Bool) (l1 l2 : List α)
    (h : findFirst pred l1 = none) :
    findFirst pred (l1 ++ l2) = findFirst pred l2 := by
  induction l1 with
  | nil => rfl
  | cons a t ih =>
    rw [findFirst] at h
    by_cases ha : pred a
    · rw [if_pos ha] at h; cases h
    · rw [if_neg ha] at h
      rw [List.cons_append, findFirst, if_neg ha]
      exact ih h

theorem countP_pointwise {α : Type} (p1 p2 : α → Bool) (l : List α)
    (h : ∀ x ∈ l, p1 x = p2 x) : l.countP p1 = l.countP p2 := by
  induction l with
  | nil => rfl
  | cons a t ih =>
    simp only [List.countP_cons, h a (List.mem_cons_self a t),
      ih (fun x hx => h x (List.mem_cons_of_mem a hx))]

theorem countP_map_comp {α β : Type} (f : α → β) (p : β → Bool) (l : List α) :
    (l.map f).countP p = l.countP (fun x => p (f x)) := by
  induction l with
  | nil => rfl
  | cons a t ih => simp [List.countP_cons, ih]

/-- C2: starting from a state with no refund mapping for
`(shopify_refund_id, instance_id)` and fresh move ids, running the refund
upsert twice (a first reconciliation, then a re-reconciliation of the
same external refund) leaves exactly one mapping record for the pair
after each run; the second run creates no move and no mapping, reopens
the posted credit note to draft before rewriting it, writes the same move
and mapping records in place, and leaves the same move (same id) posted
and carrying the second run's content. -/
theorem C2_refund_resync_in_place (db : RefundDB) (rid : String) (inst : Nat)
    (mv1 mv2 : MoveVals)
    (hfresh : ∀ mo ∈ db.moves, mo.id < db.nextMoveId)
    (hnone : ∀ m ∈ db.refundMaps, refundKey rid inst m = false) :
    mapCount (refundUpsert db rid inst mv1).1 rid inst = 1 ∧
    mapCount (refundUpsert (refundUpsert db rid inst mv1).1 rid inst mv2).1 rid inst = 1 ∧
    (refundUpsert (refundUpsert db rid inst mv1).1 rid inst mv2).1.refundMaps.length =
      (refundUpsert db rid inst mv1).1.refundMaps.length ∧
    (refundUpsert (refundUpsert db rid inst mv1).1 rid inst mv2).1.moves.length =
      (refundUpsert db rid inst mv1).1.moves.length ∧
    (∀ k, RefundAction.createMove k ∉
        (refundUpsert (refundUpsert db rid inst mv1).1 rid inst mv2).2 ∧
      RefundAction.createMapping k ∉
        (refundUpsert (refundUpsert db rid inst mv1).1 rid inst mv2).2) ∧
    RefundAction.buttonDraft db.nextMoveId ∈
      (refundUpsert (refundUpsert db rid inst mv1).1 rid inst mv2).2 ∧
    RefundAction.writeMove db.nextMoveId ∈
      (refundUpsert (refundUpsert db rid inst mv1).1 rid inst mv2).2 ∧
    RefundAction.writeMapping db.nextMapId ∈
      (refundUpsert (refundUpsert db rid inst mv1).1 rid inst mv2).2 ∧
    findFirst (fun mo => mo.id = db.nextMoveId)
        (refundUpsert (refundUpsert db rid inst mv1).1 rid inst mv2).1.moves =
      some { id := db.nextMoveId, state := "posted", vals := mv2 } := by
  have hn1 : findFirst (refundKey rid inst) db.refundMaps = none :=
    findFirst_eq_none _ _ hnone
  have e1 : refundUpsert db rid inst mv1 =
      ({ db with
          moves := db.moves ++ [freshMove db mv1]
          nextMoveId := db.nextMoveId + 1
          refundMaps := db.refundMaps ++ [freshMap db rid inst]
          nextMapId := db.nextMapId + 1 },
        [RefundAction.createMove (freshMove db mv1).id,
          RefundAction.postMove (freshMove db mv1).id,
          RefundAction.createMapping (freshMap db rid inst).id]) := by
    unfold refundUpsert
    rw [hn1]
  have hf2 : findFirst (refundKey rid inst)
      (db.refundMaps ++ [freshMap db rid inst]) = some (freshMap db rid inst) := by
    rw [findFirst_append_none _ _ _ hn1, findFirst,
      if_pos (show refundKey rid inst (freshMap db rid inst) = true by
        simp [refundKey, freshMap])]
  have hfm : findFirst (fun mo => mo.id = db.nextMoveId)
      (db.moves ++ [freshMove db mv1]) = some (freshMove db mv1) := by
    rw [findFirst_append_none _ _ _
      (findFirst_eq_none _ _
        (fun mo hmo => decide_eq_false (Nat.ne_of_lt (hfresh mo hmo)))),
      findFirst, if_pos (by simp [freshMove])]
  have e2 : refundUpsert (refundUpsert db rid inst mv1).1 rid inst mv2 =
      ({ db with
          moves := updateMove (db.moves ++ [freshMove db mv1]) db.nextMoveId
            (repostMove mv2)
          nextMoveId := db.nextMoveId + 1
          refundMaps := (db.refundMaps ++ [freshMap db rid inst]).map
            (writeMapAt db.nextMapId db.nextMoveId)
          nextMapId := db.nextMapId + 1 },
        [RefundAction.buttonDraft db.nextMoveId, RefundAction.writeMove db.nextMoveId,
          RefundAction.postMove db.nextMoveId, RefundAction.writeMapping db.nextMapId]) := by
    rw [e1]
    simp only [refundUpsert, hf2]
    simp only [freshMap, Option.some_bind]
    simp only [show
        (({ db with
            moves := db.moves ++ [freshMove db mv1]
            nextMoveId := db.nextMoveId + 1
            refundMaps := db.refundMaps ++ [freshMap db rid inst]
            nextMapId := db.nextMapId + 1 } : RefundDB)).moves =
          db.moves ++ [freshMove db mv1] from rfl, hfm]
    simp [freshMove, freshMap]
  have hkeyf : ∀ m : RefundMapping,
      refundKey rid inst (writeMapAt db.nextMapId db.nextMoveId m) =
        refundKey rid inst m := by
    intro m
    by_cases hm : m.id = db.nextMapId <;> simp [writeMapAt, hm, refundKey]
  have hz : db.refundMaps.countP (refundKey rid inst) = 0 := by
    rw [List.countP_eq_zero]
    intro m hm
    simp [hnone m hm]
  have hone : ∀ l : List RefundMapping, l.countP (refundKey rid inst) = 0 →
      (l ++ [freshMap db rid inst]).countP (refundKey rid inst) = 1 := by
    intro l hl
    rw [List.countP_append, hl]
    simp [List.countP_cons, refundKey, freshMap]
  have hcount1 : mapCount (refundUpsert db rid inst mv1).1 rid inst = 1 := by
    rw [e1]
    exact hone db.refundMaps hz
  refine ⟨hcount1, ?_, ?_, ?_, ?_, ?_, ?_, ?_, ?_⟩
  · rw [e2]
    show ((db.refundMaps ++ [freshMap db rid inst]).map
      (writeMapAt db.nextMapId db.nextMoveId)).countP (refundKey rid inst) = 1
    rw [countP_map_comp]
    rw [countP_pointwise _ (refundKey rid inst) _ (fun x _ => hkeyf x)]
    exact hone db.refundMaps hz
  · rw [e2, e1]
    simp
  · rw [e2, e1]
    simp [updateMove]
  · intro k
    rw [e2]
    constructor <;> simp
  · rw [e2]
    simp
  · rw [e2]
    simp
  · rw [e2]
    simp
  · have h1 : List.map (fun m => if m.id = db.nextMoveId then repostMove mv2 m else m)
        db.moves = db.moves := by
      simpa [updateMove] using
        updateMove_not_present db.moves db.nextMoveId (repostMove mv2)
          (fun m hm => Nat.ne_of_lt (hfresh m hm))
    have herase : updateMove (db.moves ++ [freshMove db mv1]) db.nextMoveId
        (repostMove mv2) =
        db.moves ++ [{ id := db.nextMoveId, state := "posted", vals := mv2 }] := by
      simp only [updateMove, List.map_append, h1, List.map_cons, List.map_nil]
      simp [freshMove, repostMove]
    rw [e2]
    show findFirst (fun mo => mo.id = db.nextMoveId)
        (updateMove (db.moves ++ [freshMove db mv1]) db.nextMoveId (repostMove mv2)) =
      some { id := db.nextMoveId, state := "posted", vals := mv2 }
    rw [herase, findFirst_append_none _ _ _
      (findFirst_eq_none _ _
        (fun mo hmo => decide_eq_false (Nat.ne_of_lt (hfresh mo hmo)))),
      findFirst, if_pos (by simp)]

/-- Witness for C2 at a concrete database: reconciling refund `9001`
twice keeps one mapping, reopens the posted credit note, and leaves the
same move posted with the second content. -/
theorem C2_witness :
    mapCount (refundUpsert dbEmptyRefunds "9001" 1 mvFirst).1 "9001" 1 = 1 ∧
    mapCount (refundUpsert (refundUpsert dbEmptyRefunds "9001" 1 mvFirst).1 "9001" 1
      mvSecond).1 "9001" 1 = 1 ∧
    RefundAction.buttonDraft 1 ∈
      (refundUpsert (refundUpsert dbEmptyRefunds "9001" 1 mvFirst).1 "9001" 1 mvSecond).2 ∧
    findFirst (fun mo => mo.id = 1)
        (refundUpsert (refundUpsert dbEmptyRefunds "9001" 1 mvFirst).1 "9001" 1
          mvSecond).1.moves =
      some { id := 1, state := "posted", vals := mvSecond } := by
  have h := C2_refund_resync_in_place dbEmptyRefunds "9001" 1 mvFirst mvSecond
    (by simp [dbEmptyRefunds]) (by simp [dbEmptyRefunds])
  exact ⟨h.1, h.2.1, h.2.2.2.2.2.1, h.2.2.2.2.2.2.2.2⟩

theorem stepOrder_frame (proc : OrderPayload → Except String Unit)
    (t : FetchTrace) (o : OrderPayload) :
    (stepOrder proc t o).events = t.events ∧ (stepOrder proc t o).pages = t.pages := by
  cases hpo : proc o <;> simp [stepOrder, hpo]

theorem processChunk_frame (proc : OrderPayload → Except String Unit)
    (chunk : List OrderPayload) (tr : FetchTrace) :
    (processChunk proc chunk tr).events = tr.events ∧
    (processChunk proc chunk tr).pages = tr.pages := by
  induction chunk generalizing tr with
  | nil => exact ⟨rfl, rfl⟩
  | cons o rest ih =>
    have hs := stepOrder_frame proc tr o
    have hr := ih (stepOrder proc tr o)
    simp only [processChunk, List.foldl_cons] at *
    exact ⟨hr.1.trans hs.1, hr.2.trans hs.2⟩

theorem processChunk_errorCount (proc : OrderPayload → Except String Unit)
    (chunk : List OrderPayload) (tr : FetchTrace) :
    (processChunk proc chunk tr).errorCount =
      tr.errorCount + chunk.countP (procFails proc) := by
  induction chunk generalizing tr with
  | nil => simp [processChunk]
  | cons o rest ih =>
    have hr := ih (stepOrder proc tr o)
    simp only [processChunk, List.foldl_cons] at *
    rw [hr, List.countP_cons]
    cases hpo : proc o <;> simp [stepOrder, hpo, procFails] <;> omega

theorem processChunk_errorLogs (proc : OrderPayload → Except String Unit)
    (chunk : List OrderPayload) (tr : FetchTrace) :
    (processChunk proc chunk tr).errorLogs =
      tr.errorLogs ++ (chunk.map (logOf proc)).flatten := by
  induction chunk generalizing tr with
  | nil => simp [processChunk]
  | cons o rest ih =>
    have hr := ih (stepOrder proc tr o)
    simp only [processChunk, List.foldl_cons] at *
    rw [hr]
    cases hpo : proc o <;> simp [stepOrder, hpo, logOf]

theorem processChunk_attempted (proc : OrderPayload → Except String Unit)
    (chunk : List OrderPayload) (tr : FetchTrace) :
    (processChunk proc chunk tr).attempted =
      tr.attempted ++ chunk.map (fun o => o.id) := by
  induction chunk generalizing tr with
  | nil => simp [processChunk]
  | cons o rest ih =>
    have hr := ih (stepOrder proc tr o)
    simp only [processChunk, List.foldl_cons] at *
    rw [hr]
    cases hpo : proc o <;> simp [stepOrder, hpo]

theorem processChunk_events (proc : OrderPayload → Except String Unit)
    (chunk : List OrderPayload) (tr : FetchTrace) :
    (processChunk proc chunk tr).events = tr.events :=
  (processChunk_frame proc chunk tr).1

theorem processChunk_pages (proc : OrderPayload → Except String Unit)
    (chunk : List OrderPayload) (tr : FetchTrace) :
    (processChunk proc chunk tr).pages = tr.pages :=
  (processChunk_frame proc chunk tr).2

theorem getLast?_snoc {α : Type} (l : List α) (a : α) : (l ++ [a]).getLast? = some a := by
  rw [List.getLast?_append_of_ne_nil l (by simp)]
  rfl

theorem fetchLoop_full_prefix (proc : OrderPayload → Except String Unit)
    (pre : List PageResponse) :
    ∀ (r : PageResponse) (post : List PageResponse) (lastId : Option Nat) (tr : FetchTrace),
    (∀ q ∈ pre, q.status = 200 ∧ 250 ≤ q.orders.length) →
    r.status = 200 → r.orders.length < 250 →
    (fetchLoop proc (pre ++ r :: post) lastId tr).1 = FetchOutcome.done ∧
    (fetchLoop proc (pre ++ r :: post) lastId tr).2.events =
      tr.events ++
        (cursorChain lastId (pre.map (fun q => q.orders))).map FetchEv.pageRequest ∧
    (fetchLoop proc (pre ++ r :: post) lastId tr).2.pages =
      tr.pages ++ (pre.map (fun q => q.orders) ++
        (if r.orders = [] then [] else [r.orders])) := by
  induction pre with
  | nil =>
    intro r post lastId tr _ h200 hshort
    by_cases hempty : r.orders = []
    · simp [fetchLoop, h200, hempty, cursorChain]
    · simp [fetchLoop, h200, hempty, hshort, cursorChain,
        processChunk_events, processChunk_pages]
  | cons q pre2 ih =>
    intro r post lastId tr hpre h200 hshort
    have hq := hpre q (List.mem_cons_self q pre2)
    have hqne : q.orders ≠ [] := by
      intro hnil
      have h2 := hq.2
      rw [hnil] at h2
      simp at h2
    have hnotshort : ¬ (q.orders.length < 250) := by
      have h2 := hq.2
      omega
    have hstep : fetchLoop proc ((q :: pre2) ++ r :: post) lastId tr =
        fetchLoop proc (pre2 ++ r :: post) ((q.orders.getLast?).map (fun o => o.id))
          (processChunk proc q.orders
            { tr with
                events := tr.events ++ [FetchEv.pageRequest (sinceParam lastId)]
                pages := tr.pages ++ [q.orders] }) := by
      simp [fetchLoop, hq.1, hqne, hnotshort]
    rcases ih r post ((q.orders.getLast?).map (fun o => o.id)) _
      (fun x hx => hpre x (List.mem_cons_of_mem q hx)) h200 hshort with ⟨ho, hev, hpg⟩
    refine ⟨?_, ?_, ?_⟩
    · rw [hstep]
      exact ho
    · rw [hstep, hev, processChunk_events]
      simp [cursorChain]
    · rw [hstep, hpg, processChunk_pages]
      simp

theorem fetchLoop_failed_source (proc : OrderPayload → Except String Unit)
    (responses : List PageResponse) :
    ∀ (lastId : Option Nat) (tr : FetchTrace) (st : Nat) (b : String),
    (fetchLoop proc responses lastId tr).1 = FetchOutcome.failed st b →
    ∃ r ∈ responses, r.status = st ∧ st ≠ 200 ∧ r.body = b := by
  induction responses with
  | nil =>
    intro lastId tr st b h
    simp [fetchLoop] at h
  | cons r rest ih =>
    intro lastId tr st b h
    by_cases h200 : r.status = 200
    · by_cases hempty : r.orders = []
      · simp [fetchLoop, h200, hempty] at h
      · by_cases hshort : r.orders.length < 250
        · simp [fetchLoop, h200, hempty, hshort] at h
        · rw [show fetchLoop proc (r :: rest) lastId tr =
              fetchLoop proc rest ((r.orders.getLast?).map (fun o => o.id))
                (processChunk proc r.orders
                  { tr with
                      events := tr.events ++ [FetchEv.pageRequest (sinceParam lastId)]
                      pages := tr.pages ++ [r.orders] }) from by
            simp [fetchLoop, h200, hempty, hshort]] at h
          rcases ih _ _ _ _ h with ⟨r2, hr2, hst⟩
          exact ⟨r2, List.mem_cons_of_mem r hr2, hst⟩
    · have hcur : (fetchLoop proc (r :: rest) lastId tr).1 =
          FetchOutcome.failed r.status r.body := by
        simp [fetchLoop, h200]
      rw [hcur] at h
      injection h with h1 h2
      exact ⟨r, List.mem_cons_self r rest, h1,
        fun hc => h200 (h1.trans hc), h2⟩

theorem fetchLoop_delay_free (proc : OrderPayload → Except String Unit)
    (responses : List PageResponse) :
    ∀ (lastId : Option Nat) (tr : FetchTrace),
    tr.events.filter isDelayEv = [] →
    ((fetchLoop proc responses lastId tr).2.events.filter isDelayEv) = [] := by
  induction responses with
  | nil =>
    intro lastId tr h
    simpa [fetchLoop] using h
  | cons r rest ih =>
    intro lastId tr h
    have hnew : (tr.events ++ [FetchEv.pageRequest (sinceParam lastId)]).filter
        isDelayEv = [] := by
      rw [List.filter_append, h]
      simp [isDelayEv]
    by_cases h200 : r.status = 200
    · by_cases hempty : r.orders = []
      · simpa [fetchLoop, h200, hempty] using hnew
      · by_cases hshort : r.orders.length < 250
        · simpa [fetchLoop, h200, hempty, hshort, processChunk_events] using hnew
        · rw [show fetchLoop proc (r :: rest) lastId tr =
              fetchLoop proc rest ((r.orders.getLast?).map (fun o => o.id))
                (processChunk proc r.orders
                  { tr with
                      events := tr.events ++ [FetchEv.pageRequest (sinceParam lastId)]
                      pages := tr.pages ++ [r.orders] }) from by
            simp [fetchLoop, h200, hempty, hshort]]
          apply ih
          rw [processChunk_events]
          exact hnew
    · simpa [fetchLoop, h200] using hnew

/-- C5: a per-order exception increments the error counter, writes
exactly one error log entry, and never aborts the page (every order of
the chunk is attempted, in order); the job outcome is `failed` — the
single user-facing import error — only on a transport-level non-200
response: when every response is 200, no per-order exception can fail
the job, and a failed job always traces back to a non-200 response. -/
theorem C5_per_order_error_isolation (proc : OrderPayload → Except String Unit)
    (chunk : List OrderPayload) (tr : FetchTrace)
    (responses : List PageResponse) (lastId : Option Nat) (tr0 : FetchTrace) :
    (processChunk proc chunk tr).errorCount =
      tr.errorCount + chunk.countP (procFails proc) ∧
    (processChunk proc chunk tr).errorLogs =
      tr.errorLogs ++ (chunk.map (logOf proc)).flatten ∧
    (processChunk proc chunk tr).attempted =
      tr.attempted ++ chunk.map (fun o => o.id) ∧
    ((∀ r ∈ responses, r.status = 200) →
      ∀ st b, (fetchLoop proc responses lastId tr0).1 ≠ FetchOutcome.failed st b) ∧
    (∀ st b, (fetchLoop proc responses lastId tr0).1 = FetchOutcome.failed st b →
      ∃ r ∈ responses, r.status = st ∧ st ≠ 200 ∧ r.body = b) := by
  refine ⟨processChunk_errorCount proc chunk tr, processChunk_errorLogs proc chunk tr,
    processChunk_attempted proc chunk tr, ?_, fetchLoop_failed_source proc responses lastId tr0⟩
  intro h200 st b hfail
  rcases fetchLoop_failed_source proc responses lastId tr0 st b hfail with
    ⟨r, hr, hst, hne, _⟩
  exact hne (hst ▸ h200 r hr)

/-- C6: on a response sequence of full 200-status pages followed by a
short page, the fetch loop terminates (outcome `done`) exactly at the
first short page — including an empty one — having issued one request per
consumed page, each subsequent request carrying the identifier of the
last order of the previous page as its `since_id`; the pages consumed are
exactly the full prefix plus the final short page. -/
theorem C6_pagination_termination (proc : OrderPayload → Except String Unit)
    (pre : List PageResponse) (r : PageResponse) (post : List PageResponse)
    (lastId : Option Nat) (tr : FetchTrace)
    (hpre : ∀ q ∈ pre, q.status = 200 ∧ 250 ≤ q.orders.length)
    (h200 : r.status = 200) (hshort : r.orders.length < 250) :
    (fetchLoop proc (pre ++ r :: post) lastId tr).1 = FetchOutcome.done ∧
    (fetchLoop proc (pre ++ r :: post) lastId tr).2.events =
      tr.events ++
        (cursorChain lastId (pre.map (fun q => q.orders))).map FetchEv.pageRequest ∧
    (fetchLoop proc (pre ++ r :: post) lastId tr).2.pages =
      tr.pages ++ (pre.map (fun q => q.orders) ++
        (if r.orders = [] then [] else [r.orders])) :=
  fetchLoop_full_prefix proc pre r post lastId tr hpre h200 hshort

/-- C10 (amended): the fetch loop applies no inter-page delay — its event
trace consists of page requests only; between fetching one page and
requesting the next, no delay event of any kind occurs. -/
theorem C10_no_inter_page_delay (proc : OrderPayload → Except String Unit)
    (responses : List PageResponse) (lastId : Option Nat) :
    ((fetchLoop proc responses lastId emptyFetchTrace).2.events.filter isDelayEv) = [] :=
  fetchLoop_delay_free proc responses lastId emptyFetchTrace rfl

/-- C10 counterexample: a concrete two-page run (a full page, then a
short one) issues two back-to-back page requests with no delay event
anywhere in the trace — so no fixed inter-page delay is applied between
fetching the first page and requesting the next, refuting the claim. -/
theorem C10_counterexample :
    (fetchLoop procOk [pageFull, pageShort] none emptyFetchTrace).2.events =
      [FetchEv.pageRequest none, FetchEv.pageRequest (some 5)] ∧
    ((fetchLoop procOk [pageFull, pageShort] none emptyFetchTrace).2.events.filter
      isDelayEv) = [] := by
  have hl : ([pageFull, pageShort] : List PageResponse) = [pageFull] ++ pageShort :: [] :=
    rfl
  have hpre : ∀ q ∈ [pageFull], q.status = 200 ∧ 250 ≤ q.orders.length := by
    intro q hq
    simp only [List.mem_singleton] at hq
    subst hq
    refine ⟨rfl, ?_⟩
    show (250 : Nat) ≤ (List.replicate 249 ordFive ++ [ordFive]).length
    rw [List.length_append, List.length_replicate, List.length_singleton]
  have hshort : pageShort.orders.length < 250 := by
    show (1 : Nat) < 250
    omega
  rcases fetchLoop_full_prefix procOk [pageFull] pageShort [] none emptyFetchTrace
    hpre rfl hshort with ⟨_, hev, _⟩
  rw [hl] at *
  have hlast : pageFull.orders.getLast? = some ordFive := by
    show (List.replicate 249 ordFive ++ [ordFive]).getLast? = some ordFive
    exact getLast?_snoc _ _
  have hcc : cursorChain none ([pageFull].map (fun q => q.orders)) = [none, some 5] := by
    rw [List.map_cons, List.map_nil, cursorChain, hlast]
    rfl
  constructor
  · rw [hev, hcc]
    rfl
  · rw [hev, hcc]
    rfl

/-- Witness for C6 at a concrete input: one full page then a short page;
the loop stops at the short page, the second request carries the last
order id of the first page, and both pages are consumed. -/
theorem C6_witness :
    (fetchLoop procOk ([pageFull] ++ pageShort :: []) none emptyFetchTrace).1 =
      FetchOutcome.done ∧
    (fetchLoop procOk ([pageFull] ++ pageShort :: []) none emptyFetchTrace).2.events =
      emptyFetchTrace.events ++
        (cursorChain none ([pageFull].map (fun q => q.orders))).map FetchEv.pageRequest ∧
    (fetchLoop procOk ([pageFull] ++ pageShort :: []) none emptyFetchTrace).2.pages =
      emptyFetchTrace.pages ++ ([pageFull].map (fun q => q.orders) ++
        (if pageShort.orders = [] then [] else [pageShort.orders])) := by
  have hpre : ∀ q ∈ [pageFull], q.status = 200 ∧ 250 ≤ q.orders.length := by
    intro q hq
    simp only [List.mem_singleton] at hq
    subst hq
    refine ⟨rfl, ?_⟩
    show (250 : Nat) ≤ (List.replicate 249 ordFive ++ [ordFive]).length
    rw [List.length_append, List.length_replicate, List.length_singleton]
  exact C6_pagination_termination procOk [pageFull] pageShort [] none emptyFetchTrace
    hpre rfl (by show (1 : Nat) < 250; omega)

/-- Witness for C5 at a concrete page: of three orders the middle one
raises; the error counter ends at one, one log entry is written, all
three orders are attempted, and an all-200 run never fails the job. -/
theorem C5_witness :
    (processChunk procFailSix [ordFive, ordSix, ordSeven] emptyFetchTrace).errorCount =
      0 + ([ordFive, ordSix, ordSeven].countP (procFails procFailSix)) ∧
    (processChunk procFailSix [ordFive, ordSix, ordSeven] emptyFetchTrace).errorLogs =
      [] ++ ([ordFive, ordSix, ordSeven].map (logOf procFailSix)).flatten ∧
    (processChunk procFailSix [ordFive, ordSix, ordSeven] emptyFetchTrace).attempted =
      [] ++ [ordFive, ordSix, ordSeven].map (fun o => o.id) ∧
    (fetchLoop procFailSix [pageShort] none emptyFetchTrace).1 ≠
      FetchOutcome.failed 500 "Internal Server Error" := by
  have h := C5_per_order_error_isolation procFailSix [ordFive, ordSix, ordSeven]
    emptyFetchTrace [pageShort] none emptyFetchTrace
  refine ⟨h.1, h.2.1, h.2.2.1, ?_⟩
  refine h.2.2.2.1 ?_ 500 "Internal Server Error"
  intro r hr
  simp only [List.mem_singleton] at hr
  subst hr
  rfl

end ShopifySync
